import Mathlib

/-!
Shallow embedding of `src/api/src/webhooks.py` (webhook / notification
subsystem of the configurador-3d-tsi API): the event bus, the webhook
manager with its HMAC-signed deliveries and retry loop, the notification
manager with its string templates, and the WebSocket broadcaster.

Conventions of the embedding:
* Python `datetime` values are carried as their rendered strings (the code
  only ever serializes them), so `Event.timestamp` is a `String`.
* Python dicts appearing as data (event payloads, header maps, template
  field sets) are association lists `List (String × String)`; lookup takes
  the first binding, and where Python's `{**a, "k": v}` gives later keys
  precedence the overriding bindings are placed first.
* `async` functions that only sequence awaits are modelled as pure
  functions returning what the call performed (requests built, users
  messaged, sleeps executed); exceptions are modelled with `Except`.
* Machine integers do not occur in the Python; the SHA-256 model works on
  `Nat` with explicit `% 2^32` truncation.
-/

namespace Webhooks

/-- EventType enum of `webhooks.py` (class EventType); `eventTypeValue`
carries the `.value` string of each member. -/
inductive EventType where
  | project_created
  | project_updated
  | project_deleted
  | block_added
  | block_updated
  | block_removed
  | proposal_generated
  | proposal_approved
  | proposal_rejected
  | pricing_calculated
  | configuration_changed
  | user_registered
  | user_login
  | system_error
  | api_call
deriving DecidableEq, Repr

/-- The `.value` string of each EventType member, as in the enum body. -/
def eventTypeValue : EventType → String
  | .project_created => "project.created"
  | .project_updated => "project.updated"
  | .project_deleted => "project.deleted"
  | .block_added => "block.added"
  | .block_updated => "block.updated"
  | .block_removed => "block.removed"
  | .proposal_generated => "proposal.generated"
  | .proposal_approved => "proposal.approved"
  | .proposal_rejected => "proposal.rejected"
  | .pricing_calculated => "pricing.calculated"
  | .configuration_changed => "configuration.changed"
  | .user_registered => "user.registered"
  | .user_login => "user.login"
  | .system_error => "system.error"
  | .api_call => "api.call"

/-- Event dataclass. `data` holds the string-valued payload fields the
subsystem reads and serializes (an association list standing for the
Python dict); `timestamp` is the datetime carried as its rendered string. -/
structure Event where
  id : String
  type : EventType
  source : String
  timestamp : String
  data : List (String × String)
  user_id : Option String := none
  project_id : Option String := none
  metadata : Option (List (String × String)) := none
deriving DecidableEq, Repr

/-- WebhookEndpoint dataclass, with the dataclass defaults. -/
structure WebhookEndpoint where
  id : String
  url : String
  events : List EventType
  active : Bool := true
  secret : Option String := none
  headers : Option (List (String × String)) := none
  retry_count : Nat := 3
  timeout : Nat := 30
deriving DecidableEq, Repr

/-- Notification dataclass (the fields `create_notification` fills;
`status`, `attempts`, timestamps are carried with their defaults). -/
structure Notification where
  id : String
  event_id : String
  channel : String
  recipient : String
  subject : String
  content : String
  status : String := "pending"
  attempts : Nat := 0
deriving DecidableEq, Repr

/-! ## EventBus -/

/-- One subscriber callback: given the event it either returns or raises
(`Except.error` is the raised exception's message). Synchronous callbacks
raise at the call site inside `publish`'s per-callback `try`; coroutine
callbacks surface their exception through `asyncio.gather` run with
`return_exceptions=True` — both paths deliver the outcome to `publish`
without letting it escape, which is what this one constructor models. -/
def Handler : Type := Event → Except String Unit

/-- EventBus state: subscribers per event type, the history list, and
`max_history` (set to 1000 in `__init__`). -/
structure EventBus where
  subscribers : EventType → List Handler
  event_history : List Event
  max_history : Nat := 1000

/-- History update performed by `EventBus.publish`: append the event, then
`pop(0)` when the length exceeds `max_history`. -/
def pushHistory (hist : List Event) (maxHistory : Nat) (e : Event) : List Event :=
  let h := hist ++ [e]
  if h.length > maxHistory then h.drop 1 else h

/-- The per-callback `try`/`except` of `publish`: the callback's outcome is
logged but never re-raised, so the iteration always continues normally. -/
def callbackGuard (r : Except String Unit) : Except String Unit :=
  match r with
  | .ok _ => .ok ()
  | .error _ => .ok ()

/-- Subscriber notification loop of `publish`: each callback in order is run
under `callbackGuard`; the returned list records every callback's own
outcome (what the logger saw). The whole loop lives in `Except` because an
uncaught exception would abort it — the theorem shows none ever does. -/
def notifyAll (subs : List Handler) (e : Event) : Except String (List (Except String Unit)) :=
  match subs with
  | [] => .ok []
  | h :: t => do
      let r := h e
      let _ ← callbackGuard r
      let rest ← notifyAll t e
      pure (r :: rest)

/-- EventBus.publish: append to history (with eviction), then notify every
subscriber of the event's type. Returns the new state and the per-callback
outcomes; an `Except.error` at the outside would be an exception escaping
`publish` itself. -/
def publish (bus : EventBus) (e : Event) : Except String (EventBus × List (Except String Unit)) := do
  let hist := pushHistory bus.event_history bus.max_history e
  let outcomes ← notifyAll (bus.subscribers e.type) e
  pure ({ bus with event_history := hist }, outcomes)

/-! ## WebhookManager: delivery attempts -/

/-- Outcome of one `session.post` attempt: either an HTTP response with a
status code, or a raised exception (timeout, transport error, ...). -/
inductive AttemptOutcome where
  | status (code : Nat)
  | exc
deriving DecidableEq, Repr

/-- True when the attempt raised rather than returned a response. -/
def AttemptOutcome.isExc : AttemptOutcome → Bool
  | .status _ => false
  | .exc => true

/-- True when the attempt did not deliver: a non-2xx response or a raised
exception. -/
def AttemptOutcome.failed : AttemptOutcome → Bool
  | .status c => !(200 ≤ c && c < 300)
  | .exc => true

/-- What one run of the `for attempt in range(endpoint.retry_count)` loop of
`send_webhook` performed. -/
structure SendResult where
  attempts : Nat
  sleeps : List Nat
  delivered : Bool
deriving DecidableEq, Repr

/-- Body of the `for attempt in range(endpoint.retry_count)` loop of
`send_webhook`, iterating over the remaining loop indices; the
environment's outcome for each attempt is given by `outcomes`. A 2xx
response returns at once; a non-2xx response just continues; an exception
sleeps `2 ** attempt` first — but only when another attempt remains
(`attempt < retry_count - 1`). -/
def attemptLoop (outcomes : Nat → AttemptOutcome) (retryCount : Nat) :
    List Nat → SendResult
  | [] => { attempts := 0, sleeps := [], delivered := false }
  | k :: rest =>
      match outcomes k with
      | .status c =>
          if 200 ≤ c ∧ c < 300 then
            { attempts := 1, sleeps := [], delivered := true }
          else
            let r := attemptLoop outcomes retryCount rest
            { attempts := 1 + r.attempts, sleeps := r.sleeps, delivered := r.delivered }
      | .exc =>
          let r := attemptLoop outcomes retryCount rest
          let s := if k < retryCount - 1 then [2 ^ k] else []
          { attempts := 1 + r.attempts, sleeps := s ++ r.sleeps, delivered := r.delivered }

/-- The retry loop of `send_webhook`: the loop body over the indices
`range(retry_count)`. -/
def runAttempts (outcomes : Nat → AttemptOutcome) (retryCount : Nat) : SendResult :=
  attemptLoop outcomes retryCount (List.range retryCount)

/-- send_webhook's attempt phase: the `if not self.session: return` guard
makes zero attempts when the session was never initialized; otherwise the
retry loop runs from attempt 0. The function always returns normally. -/
def sendWebhookAttempts (session : Option Unit) (ep : WebhookEndpoint)
    (outcomes : Nat → AttemptOutcome) : SendResult :=
  match session with
  | none => { attempts := 0, sleeps := [], delivered := false }
  | some _ => runAttempts outcomes ep.retry_count

/-- Session of the module-level `webhook_manager = WebhookManager(event_bus)`:
`__init__` sets `self.session = None` and the global wiring never enters the
`async with` context manager, so it stays `None`. -/
def moduleWebhookManagerSession : Option Unit := none

/-! ## WebhookManager.handle_event -/

/-- The endpoints `handle_event` fires `send_webhook` for, in iteration
order: those that are `active` and whose `events` list contains the event's
type. -/
def handleEvent (endpoints : List WebhookEndpoint) (e : Event) : List WebhookEndpoint :=
  endpoints.filter (fun ep => ep.active && ep.events.contains e.type)

/-- Time accounting for `handle_event`: the loop body is
`await self.send_webhook(endpoint, event)`, so the delivery to each
endpoint starts only when the previous one has completed. `dur ep` is the
wall time the awaited `send_webhook(ep, event)` takes (its attempts,
timeouts and backoff sleeps); the result pairs each endpoint with the time
its delivery starts, the first at time `now`. -/
def scheduleSeq (dur : WebhookEndpoint → Nat) : List WebhookEndpoint → Nat → List (WebhookEndpoint × Nat)
  | [], _ => []
  | ep :: t, now => (ep, now) :: scheduleSeq dur t (now + dur ep)

/-- Start times of the deliveries `handle_event` performs for one event,
beginning at time 0. -/
def handleEventSchedule (endpoints : List WebhookEndpoint) (e : Event)
    (dur : WebhookEndpoint → Nat) : List (WebhookEndpoint × Nat) :=
  scheduleSeq dur (handleEvent endpoints e) 0

/-! ## NotificationManager -/

/-- One recipient dict produced by `get_event_recipients`: keys `channel`,
`address`, `name`. -/
structure Recipient where
  channel : String
  address : String
  name : String
deriving DecidableEq, Repr

/-- Python `d.get(k, dflt)` on a string-valued dict. -/
def dictGet (d : List (String × String)) (k dflt : String) : String :=
  match d.lookup k with
  | some v => v
  | none => dflt

/-- NotificationManager.get_event_recipients: the fixed per-type policy of
the `if`/`elif` chain. Only `event.type` and `event.data` are consulted. -/
def getEventRecipients (e : Event) : List Recipient :=
  if e.type = .user_registered then
    [{ channel := "email", address := dictGet e.data "email" "",
       name := dictGet e.data "full_name" "Usuário" }]
  else if e.type = .project_created ∨ e.type = .proposal_generated then
    [{ channel := "email", address := dictGet e.data "user_email" "",
       name := dictGet e.data "user_name" "Usuário" }]
  else if e.type = .system_error then
    [{ channel := "email", address := "admin@tsi.com.br", name := "Administrador" }]
  else
    []

/-- Segment of a Python format string: literal text, or a `\x7bname\x7d`
replacement field. `{total_value:,.2f}` keeps only its field name
`total_value`: the format spec shapes the substituted text but plays no
role in the KeyError behaviour the claims are about, and the model's
payloads carry field values as their rendered strings. -/
inductive Seg where
  | lit (s : String)
  | var (k : String)
deriving DecidableEq, Repr

/-- Names of the replacement fields of a format string. -/
def segVars : List Seg → List String
  | [] => []
  | .lit _ :: t => segVars t
  | .var k :: t => k :: segVars t

/-- Python `template.format(**fields)`: every replacement field is looked
up in `fields`; a missing field raises KeyError, modelled as `none`. -/
def renderSegs (segs : List Seg) (fields : List (String × String)) : Option String :=
  match segs with
  | [] => some ""
  | .lit s :: t => (renderSegs t fields).map (fun r => s ++ r)
  | .var k :: t =>
      match fields.lookup k with
      | none => none
      | some v => (renderSegs t fields).map (fun r => v ++ r)

/-- One notification template: subject and content format strings. -/
structure Template where
  subject : List Seg
  content : List Seg
deriving DecidableEq, Repr

/-- Line break plus the 16-space indentation each body line of the Python
triple-quoted template strings carries. -/
def nl16 : String := "\n                "

/-- The four default templates of `load_default_templates`, each format
string split into its literal and replacement-field segments. -/
def defaultTemplates : List (String × Template) :=
  [("project_created",
    { subject := [.lit "Novo projeto criado: ", .var "project_name"],
      content :=
        [.lit nl16, .lit "Olá ", .var "user_name", .lit ",", .lit nl16, .lit nl16,
         .lit "Seu projeto \"", .var "project_name", .lit "\" foi criado com sucesso.",
         .lit nl16, .lit nl16, .lit "Detalhes:",
         .lit nl16, .lit "- ID do Projeto: ", .var "project_id",
         .lit nl16, .lit "- Data de Criação: ", .var "created_at",
         .lit nl16, .lit "- Aplicação: ", .var "application",
         .lit nl16, .lit nl16,
         .lit "Você pode acessar seu projeto através do configurador.",
         .lit nl16, .lit nl16, .lit "Atenciosamente,", .lit nl16, .lit "Equipe TSI",
         .lit nl16] }),
   ("proposal_generated",
    { subject := [.lit "Proposta gerada: ", .var "proposal_number"],
      content :=
        [.lit nl16, .lit "Olá ", .var "user_name", .lit ",", .lit nl16, .lit nl16,
         .lit "Uma nova proposta foi gerada para o projeto \"", .var "project_name",
         .lit "\".", .lit nl16, .lit nl16, .lit "Detalhes da Proposta:",
         .lit nl16, .lit "- Número: ", .var "proposal_number",
         .lit nl16, .lit "- Valor Total: R$ ", .var "total_value",
         .lit nl16, .lit "- Válida até: ", .var "valid_until",
         .lit nl16, .lit nl16,
         .lit "A proposta está disponível para download no sistema.",
         .lit nl16, .lit nl16, .lit "Atenciosamente,", .lit nl16, .lit "Equipe TSI",
         .lit nl16] }),
   ("user_registered",
    { subject := [.lit "Bem-vindo ao Configurador 3D TSI"],
      content :=
        [.lit nl16, .lit "Olá ", .var "user_name", .lit ",", .lit nl16, .lit nl16,
         .lit "Bem-vindo ao Configurador 3D TSI!", .lit nl16, .lit nl16,
         .lit "Sua conta foi criada com sucesso. Agora você pode:",
         .lit nl16, .lit "- Criar projetos de sistemas industriais",
         .lit nl16, .lit "- Configurar equipamentos em 3D",
         .lit nl16, .lit "- Gerar propostas comerciais",
         .lit nl16, .lit "- Calcular preços em tempo real",
         .lit nl16, .lit nl16, .lit "Comece criando seu primeiro projeto!",
         .lit nl16, .lit nl16, .lit "Atenciosamente,", .lit nl16, .lit "Equipe TSI",
         .lit nl16] }),
   ("system_error",
    { subject := [.lit "Alerta do Sistema - ", .var "error_type"],
      content :=
        [.lit nl16, .lit "Alerta do Sistema Configurador 3D TSI", .lit nl16, .lit nl16,
         .lit "Tipo de Erro: ", .var "error_type",
         .lit nl16, .lit "Timestamp: ", .var "timestamp",
         .lit nl16, .lit "Usuário: ", .var "user_id",
         .lit nl16, .lit "Projeto: ", .var "project_id",
         .lit nl16, .lit nl16, .lit "Detalhes:", .lit nl16, .var "error_details",
         .lit nl16, .lit nl16,
         .lit "Este é um alerta automático do sistema.", .lit nl16] })]

/-- Merged field set of `create_notification`: `\x7b**event.data,
"timestamp": ..., "event_id": ..., "user_name": ...\x7d`. The three
explicit keys override payload keys, so they come first in the
association list; `timestamp` carries the strftime-rendered datetime (the
embedding stores the datetime as its rendered string). -/
def templateData (e : Event) (r : Recipient) : List (String × String) :=
  [("timestamp", e.timestamp), ("event_id", e.id), ("user_name", r.name)] ++ e.data

/-- NotificationManager.create_notification. `newId` stands for the
`uuid.uuid4()` the environment draws. On a missing template key, or a
KeyError while formatting subject or content, no notification is created
and the stored list is returned unchanged; otherwise the new notification
is appended and also returned. -/
def createNotification (notifications : List Notification)
    (templates : List (String × Template)) (e : Event) (r : Recipient)
    (templateKey : String) (newId : String) : List Notification × Option Notification :=
  match templates.lookup templateKey with
  | none => (notifications, none)
  | some tmpl =>
      let tdata := templateData e r
      match renderSegs tmpl.subject tdata, renderSegs tmpl.content tdata with
      | some subj, some cont =>
          let n : Notification :=
            { id := newId, event_id := e.id, channel := r.channel,
              recipient := r.address, subject := subj, content := cont }
          (notifications ++ [n], some n)
      | _, _ => (notifications, none)

/-- NotificationManager.send_notification on one notification: bump
`attempts`; the email/SMS/Slack stubs all return success, any other
channel is unsupported and fails. The stored object is mutated in place,
so the list entry carries the updated status. -/
def sendNotification (n : Notification) : Notification :=
  let n1 := { n with attempts := n.attempts + 1 }
  if n1.channel = "email" ∨ n1.channel = "sms" ∨ n1.channel = "slack" then
    { n1 with status := "sent" }
  else
    { n1 with status := "failed" }

/-- The recipient loop of `handle_notification_event`: create a
notification for each recipient in turn (recipient `i` drawing id
`idGen i`), send it when creation succeeded, skip it otherwise. The
accumulator is the manager's stored notification list. -/
def processRecipients (templates : List (String × Template)) (e : Event)
    (templateKey : String) (idGen : Nat → String) :
    List Recipient → Nat → List Notification → List Notification
  | [], _, acc => acc
  | r :: rs, i, acc =>
      match createNotification acc templates e r templateKey (idGen i) with
      | (_, some n) =>
          processRecipients templates e templateKey idGen rs (i + 1)
            (acc ++ [sendNotification n])
      | (acc2, none) =>
          processRecipients templates e templateKey idGen rs (i + 1) acc2

/-- NotificationManager.handle_notification_event: derive the template key
from the event type (`.` becomes `_`), and when a template exists run the
recipient loop over `get_event_recipients`. -/
def handleNotificationEvent (notifications : List Notification)
    (templates : List (String × Template)) (idGen : Nat → String) (e : Event) :
    List Notification :=
  let templateKey := (eventTypeValue e.type).replace "." "_"
  if (templates.lookup templateKey).isSome then
    processRecipients templates e templateKey idGen (getEventRecipients e) 0 notifications
  else
    notifications

/-! ## WebSocketManager -/

/-- WebSocketManager.broadcast_event: which connected users are sent the
message. With no connections the method returns at once; with
`event.user_id` set the target list is that single user, filtered by
membership in the connection dict; otherwise every connection dict key.
`α` is the websocket handle type (never inspected here). -/
def broadcastTargets {α : Type} (connections : List (String × α)) (e : Event) : List String :=
  if connections.isEmpty then []
  else
    let keys := connections.map Prod.fst
    let targetUsers := match e.user_id with
      | some u => [u]
      | none => keys
    targetUsers.filter (fun u => keys.contains u)

/-! ## JSON serialization

The webhook payload is a Python dict; two serializations of it matter:
`json.dumps(payload, separators=(',', ':'))`, which `send_webhook` signs,
and `json.dumps(payload)` — default separators `', '` and `': '` — which
aiohttp's `json=payload` applies to produce the request body. -/

/-- JSON values the payload uses: `None`, strings, and dicts (insertion
order preserved, as `json.dumps` serializes them). -/
inductive Json where
  | null
  | str (s : String)
  | obj (fields : List (String × Json))

/-- JSON string escaping for the characters the payloads contain: `\"` and
backslash (json.dumps additionally escapes control and non-ASCII
characters, which do not occur in the inputs at issue). -/
def escapeJsonChar (c : Char) : String :=
  if c = '\\' then "\\\\" else if c = '"' then "\\\"" else String.singleton c

/-- Escape a string's characters for a JSON string literal. -/
def jsonEscape (s : String) : String := String.join (s.data.map escapeJsonChar)

/-- Quote a string as a JSON string literal. -/
def jsonQuote (s : String) : String := "\"" ++ jsonEscape s ++ "\""

mutual

/-- `json.dumps` with item separator `isep` and key separator `ksep`. -/
def dumpsWith (isep ksep : String) : Json → String
  | .null => "null"
  | .str s => jsonQuote s
  | .obj fs => "\x7b" ++ dumpsFieldsWith isep ksep fs ++ "\x7d"

/-- Serialize a dict's key/value items joined by the item separator. -/
def dumpsFieldsWith (isep ksep : String) : List (String × Json) → String
  | [] => ""
  | [(k, v)] => jsonQuote k ++ ksep ++ dumpsWith isep ksep v
  | (k, v) :: fs =>
      jsonQuote k ++ ksep ++ dumpsWith isep ksep v ++ isep ++ dumpsFieldsWith isep ksep fs

end

/-- `json.dumps(x, separators=(',', ':'))`: the bytes `send_webhook` feeds
to the HMAC. -/
def dumpsCompact (j : Json) : String := dumpsWith "," ":" j

/-- `json.dumps(x)` with the default separators `', '` and `': '`: the
bytes aiohttp sends as the request body for `json=payload`. -/
def dumpsPythonDefault (j : Json) : String := dumpsWith ", " ": " j

/-- An optional string attribute serialized as JSON (`None` → `null`). -/
def optStr : Option String → Json
  | none => .null
  | some s => .str s

/-- An optional dict attribute serialized as JSON (`None` → `null`). -/
def optObj : Option (List (String × String)) → Json
  | none => .null
  | some d => .obj (d.map (fun kv => (kv.1, Json.str kv.2)))

/-- The payload dict `send_webhook` builds: one key `event` holding the
event's fields in the source's insertion order. -/
def webhookPayload (e : Event) : Json :=
  .obj [("event", .obj
    [("id", .str e.id),
     ("type", .str (eventTypeValue e.type)),
     ("source", .str e.source),
     ("timestamp", .str e.timestamp),
     ("data", .obj (e.data.map (fun kv => (kv.1, Json.str kv.2)))),
     ("user_id", optStr e.user_id),
     ("project_id", optStr e.project_id),
     ("metadata", optObj e.metadata)])]

/-! ## SHA-256 and HMAC

Executable model of `hashlib.sha256` / `hmac.new(..., hashlib.sha256)`
on byte lists (each byte a `Nat < 256`), word arithmetic on `Nat` with
explicit truncation to 32 bits. -/

/-- Truncate to a 32-bit word. -/
def w32 (n : Nat) : Nat := n % 4294967296

/-- Rotate a 32-bit word right by `n` bits. -/
def rotr32 (n x : Nat) : Nat := w32 ((x >>> n) ||| (x <<< (32 - n)))

/-- SHA-256 `Ch(x, y, z)`; `NOT x` on 32 bits is `x XOR 0xffffffff`. -/
def shaCh (x y z : Nat) : Nat := (x &&& y) ^^^ ((x ^^^ 4294967295) &&& z)

/-- SHA-256 `Maj(x, y, z)`. -/
def shaMaj (x y z : Nat) : Nat := (x &&& y) ^^^ (x &&& z) ^^^ (y &&& z)

/-- SHA-256 `Σ0`. -/
def bigSigma0 (x : Nat) : Nat := rotr32 2 x ^^^ rotr32 13 x ^^^ rotr32 22 x

/-- SHA-256 `Σ1`. -/
def bigSigma1 (x : Nat) : Nat := rotr32 6 x ^^^ rotr32 11 x ^^^ rotr32 25 x

/-- SHA-256 `σ0`. -/
def smallSigma0 (x : Nat) : Nat := rotr32 7 x ^^^ rotr32 18 x ^^^ (x >>> 3)

/-- SHA-256 `σ1`. -/
def smallSigma1 (x : Nat) : Nat := rotr32 17 x ^^^ rotr32 19 x ^^^ (x >>> 10)

/-- The 64 SHA-256 round constants (FIPS 180-4), written in decimal. -/
def sha256K : List Nat :=
  [1116352408, 1899447441, 3049323471, 3921009573, 961987163, 1508970993,
   2453635748, 2870763221, 3624381080, 310598401, 607225278, 1426881987,
   1925078388, 2162078206, 2614888103, 3248222580, 3835390401, 4022224774,
   264347078, 604807628, 770255983, 1249150122, 1555081692, 1996064986,
   2554220882, 2821834349, 2952996808, 3210313671, 3336571891, 3584528711,
   113926993, 338241895, 666307205, 773529912, 1294757372, 1396182291,
   1695183700, 1986661051, 2177026350, 2456956037, 2730485921, 2820302411,
   3259730800, 3345764771, 3516065817, 3600352804, 4094571909, 275423344,
   430227734, 506948616, 659060556, 883997877, 958139571, 1322822218,
   1537002063, 1747873779, 1955562222, 2024104815, 2227730452, 2361852424,
   2428436474, 2756734187, 3204031479, 3329325298]

/-- The SHA-256 initial hash value (FIPS 180-4), written in decimal. -/
def sha256H0 : List Nat :=
  [1779033703, 3144134277, 1013904242, 2773480762,
   1359893119, 2600822924, 528734635, 1541459225]

/-- Big-endian byte rendering of `n` on `len` bytes. -/
def bytesBE : Nat → Nat → List Nat
  | 0, _ => []
  | m + 1, n => bytesBE m (n >>> 8) ++ [n &&& 255]

/-- SHA-256 padding: append `0x80`, zeros to 56 mod 64, then the bit
length on 8 big-endian bytes. -/
def padMessage (msg : List Nat) : List Nat :=
  let len := msg.length
  let z := (119 - len % 64) % 64
  msg ++ [128] ++ List.replicate z 0 ++ bytesBE 8 (8 * len)

/-- Split a byte list into 64-byte blocks (structural recursion on a fuel
bound: each step consumes at least one byte, so the list's length
suffices). -/
def toBlocksFuel : Nat → List Nat → List (List Nat)
  | 0, _ => []
  | _, [] => []
  | fuel + 1, l => l.take 64 :: toBlocksFuel fuel (l.drop 64)

/-- Split a byte list into 64-byte blocks. -/
def toBlocks (l : List Nat) : List (List Nat) := toBlocksFuel l.length l

/-- Group bytes into big-endian 32-bit words. -/
def toWords : List Nat → List Nat
  | b0 :: b1 :: b2 :: b3 :: rest =>
      ((((b0 <<< 8) ||| b1) <<< 8 ||| b2) <<< 8 ||| b3) :: toWords rest
  | _ => []

/-- The next word of the message schedule, from the last 16 words so far. -/
def scheduleStep (ws : List Nat) : Nat :=
  let g := fun i => ws.getD (ws.length - i) 0
  w32 (g 16 + smallSigma0 (g 15) + g 7 + smallSigma1 (g 2))

/-- Extend the 16 block words by `n` further schedule words. -/
def extendWords (ws : List Nat) : Nat → List Nat
  | 0 => ws
  | n + 1 => extendWords (ws ++ [scheduleStep ws]) n

/-- The eight SHA-256 working variables. -/
structure Sha256State where
  a : Nat
  b : Nat
  c : Nat
  d : Nat
  e : Nat
  f : Nat
  g : Nat
  h : Nat
deriving DecidableEq, Repr

/-- One SHA-256 compression round; `kw` is `K[i] + W[i]`. -/
def sha256Round (st : Sha256State) (kw : Nat) : Sha256State :=
  let t1 := w32 (st.h + bigSigma1 st.e + shaCh st.e st.f st.g + kw)
  let t2 := w32 (bigSigma0 st.a + shaMaj st.a st.b st.c)
  { a := w32 (t1 + t2), b := st.a, c := st.b, d := st.c,
    e := w32 (st.d + t1), f := st.e, g := st.f, h := st.g }

/-- Compress one 64-byte block into the running hash (eight words). -/
def compressBlock (hs : List Nat) (block : List Nat) : List Nat :=
  let ws := extendWords (toWords block) 48
  let kws := List.zipWith (fun k w => k + w) sha256K ws
  let st0 : Sha256State :=
    { a := hs.getD 0 0, b := hs.getD 1 0, c := hs.getD 2 0, d := hs.getD 3 0,
      e := hs.getD 4 0, f := hs.getD 5 0, g := hs.getD 6 0, h := hs.getD 7 0 }
  let stf := kws.foldl sha256Round st0
  [w32 (hs.getD 0 0 + stf.a), w32 (hs.getD 1 0 + stf.b), w32 (hs.getD 2 0 + stf.c),
   w32 (hs.getD 3 0 + stf.d), w32 (hs.getD 4 0 + stf.e), w32 (hs.getD 5 0 + stf.f),
   w32 (hs.getD 6 0 + stf.g), w32 (hs.getD 7 0 + stf.h)]

/-- SHA-256 digest of a byte list, as 32 bytes. -/
def sha256 (msg : List Nat) : List Nat :=
  let hs := (toBlocks (padMessage msg)).foldl compressBlock sha256H0
  (hs.map (bytesBE 4)).flatten

/-- HMAC-SHA256 of `msg` keyed by `key` (block size 64). -/
def hmacSha256 (key msg : List Nat) : List Nat :=
  let k0 := if key.length > 64 then sha256 key else key
  let kp := k0 ++ List.replicate (64 - k0.length) 0
  let ipadded := kp.map (fun b => b ^^^ 54)
  let opadded := kp.map (fun b => b ^^^ 92)
  sha256 (opadded ++ sha256 (ipadded ++ msg))

/-- Lower-case hex digit. -/
def hexDigit (n : Nat) : Char :=
  if n < 10 then Char.ofNat (48 + n) else Char.ofNat (87 + n)

/-- Lower-case hex rendering of a byte list, as `.hexdigest()` returns. -/
def bytesToHex (bs : List Nat) : String :=
  String.join (bs.map (fun b => String.mk [hexDigit (b / 16), hexDigit (b % 16)]))

/-- Bytes of an ASCII string under `.encode()` (all strings at issue are
ASCII, where UTF-8 is the identity on code points). -/
def strBytes (s : String) : List Nat := s.data.map Char.toNat

/-! ## send_webhook: the request built -/

/-- Python dict assignment `d[k] = v`: overwrite the key if present, else
append it. -/
def dictSet (d : List (String × String)) (k v : String) : List (String × String) :=
  if (d.map Prod.fst).contains k then
    d.map (fun kv => if kv.1 = k then (k, v) else kv)
  else d ++ [(k, v)]

/-- Python `d.update(entries)`: set each entry in order. -/
def dictUpdate (d : List (String × String)) (entries : List (String × String)) :
    List (String × String) :=
  entries.foldl (fun acc kv => dictSet acc kv.1 kv.2) d

/-- The HTTP request `send_webhook` hands to `session.post` for one
endpoint and event. -/
structure WebhookRequest where
  url : String
  headers : List (String × String)
  body : String
deriving DecidableEq, Repr

/-- Request construction of `send_webhook`: base headers, endpoint header
overrides, then — when a secret is configured — the signature header
`sha256=<hex hmac>` computed over `json.dumps(payload, separators=(',', ':'))`.
The body is what aiohttp serializes for `json=payload`, namely
`json.dumps(payload)` with its default separators. -/
def buildWebhookRequest (ep : WebhookEndpoint) (e : Event) : WebhookRequest :=
  let payload := webhookPayload e
  let headers0 := [("Content-Type", "application/json"),
                   ("User-Agent", "Configurador-3D-TSI-Webhook/1.0")]
  let headers1 := match ep.headers with
    | none => headers0
    | some hs => dictUpdate headers0 hs
  let headers2 := match ep.secret with
    | none => headers1
    | some secret =>
        let payloadStr := dumpsCompact payload
        let signature := bytesToHex (hmacSha256 (strBytes secret) (strBytes payloadStr))
        dictSet headers1 "X-Webhook-Signature" ("sha256=" ++ signature)
  { url := ep.url, headers := headers2, body := dumpsPythonDefault payload }

/-! ## Helper lemmas -/

/-- The subscriber loop always completes, recording each callback's own
outcome in order: the per-callback guard turns every outcome into a normal
continuation. -/
theorem notifyAll_eq (subs : List Handler) (e : Event) :
    notifyAll subs e = .ok (subs.map (fun h => h e)) := by
  induction subs with
  | nil => rfl
  | cons hd tl ih =>
      show (do
        let r := hd e
        let _ ← callbackGuard r
        let rest ← notifyAll tl e
        pure (r :: rest) : Except String (List (Except String Unit))) = _
      cases hr : hd e <;>
        simp [callbackGuard, ih, bind, Except.bind, pure, Except.pure, hr]

/-- publish, unfolded through the always-successful subscriber loop. -/
theorem publish_eq (bus : EventBus) (e : Event) :
    publish bus e =
      .ok ({ bus with
              event_history := pushHistory bus.event_history bus.max_history e },
           (bus.subscribers e.type).map (fun h => h e)) := by
  show (do
    let hist := pushHistory bus.event_history bus.max_history e
    let outcomes ← notifyAll (bus.subscribers e.type) e
    pure ({ bus with event_history := hist }, outcomes) :
      Except String (EventBus × List (Except String Unit))) = _
  simp [notifyAll_eq, bind, Except.bind, pure, Except.pure]

/-! ## Claims -/

/-- C3: publishing never fails because a subscriber misbehaved: `publish`
returns normally on every bus and event, and the outcome list pairs off
with the full subscriber list — every handler registered for the event's
type is invoked with the event and its own success or raised exception is
recorded, regardless of what any other handler did. -/
theorem publish_isolates_handler_failures (bus : EventBus) (e : Event) :
    ∃ bus' outs, publish bus e = .ok (bus', outs) ∧
      outs = (bus.subscribers e.type).map (fun h => h e) ∧
      outs.length = (bus.subscribers e.type).length := by
  refine ⟨_, _, publish_eq bus e, rfl, ?_⟩
  simp

/-- The history update at capacity 1000: evict the head exactly when the
history is full, otherwise just append. -/
theorem pushHistory_spec (hist : List Event) (e : Event) (hlen : hist.length ≤ 1000) :
    pushHistory hist 1000 e =
      if hist.length = 1000 then hist.tail ++ [e] else hist ++ [e] := by
  unfold pushHistory
  simp only [List.length_append, List.length_singleton]
  by_cases h : hist.length = 1000
  · rw [if_pos (by omega), if_pos h,
      List.drop_append_of_le_length (by omega), List.drop_one]
  · rw [if_neg (by omega), if_neg h]

/-- C4: publishing with the configured capacity 1000 keeps the history
bounded by 1000; the published event is always present afterwards, exactly
once when it was not already there; at capacity exactly the oldest entry
is evicted, below capacity the history is just extended. -/
theorem publish_history_capacity (bus : EventBus) (e : Event)
    (hcap : bus.max_history = 1000) (hlen : bus.event_history.length ≤ 1000) :
    ∃ bus' outs, publish bus e = .ok (bus', outs) ∧
      bus'.event_history.length ≤ 1000 ∧
      e ∈ bus'.event_history ∧
      (e ∉ bus.event_history → bus'.event_history.count e = 1) ∧
      (bus.event_history.length = 1000 →
        bus'.event_history = bus.event_history.tail ++ [e]) ∧
      (bus.event_history.length < 1000 →
        bus'.event_history = bus.event_history ++ [e]) := by
  have hspec : pushHistory bus.event_history bus.max_history e =
      if bus.event_history.length = 1000 then bus.event_history.tail ++ [e]
      else bus.event_history ++ [e] := by
    rw [hcap]; exact pushHistory_spec _ _ hlen
  refine ⟨_, _, publish_eq bus e, ?_, ?_, ?_, ?_, ?_⟩ <;>
    simp only [hspec]
  · by_cases h : bus.event_history.length = 1000
    · rw [if_pos h]
      simp only [List.length_append, List.length_tail, List.length_singleton]
      omega
    · rw [if_neg h]
      simp only [List.length_append, List.length_singleton]
      omega
  · by_cases h : bus.event_history.length = 1000 <;> simp [h]
  · intro hnot
    have hnott : e ∉ bus.event_history.tail := by
      intro hmem
      exact hnot (List.mem_of_mem_tail hmem)
    by_cases h : bus.event_history.length = 1000 <;>
      simp [h, List.count_append, List.count_eq_zero_of_not_mem, hnot, hnott]
  · intro h1000
    simp [h1000]
  · intro hlt
    have h : bus.event_history.length ≠ 1000 := by omega
    simp [h]

/-- C4 witness: an empty-history bus at capacity 1000 satisfies the
hypotheses and the published event lands in the history. -/
theorem publish_history_capacity_witness :
    (([] : List Event).length ≤ 1000) ∧
    (∃ bus' outs,
      publish { subscribers := fun _ => [], event_history := [], max_history := 1000 }
        { id := "e1", type := .api_call, source := "api", timestamp := "t", data := [] } =
        .ok (bus', outs) ∧
      bus'.event_history.length ≤ 1000 ∧
      { id := "e1", type := .api_call, source := "api", timestamp := "t",
        data := [] : Event } ∈ bus'.event_history ∧
      ({ id := "e1", type := .api_call, source := "api", timestamp := "t",
         data := [] : Event } ∉ ([] : List Event) → bus'.event_history.count
        { id := "e1", type := .api_call, source := "api", timestamp := "t", data := [] } = 1) ∧
      (([] : List Event).length = 1000 →
        bus'.event_history = ([] : List Event).tail ++
          [{ id := "e1", type := .api_call, source := "api", timestamp := "t", data := [] }]) ∧
      (([] : List Event).length < 1000 →
        bus'.event_history = ([] : List Event) ++
          [{ id := "e1", type := .api_call, source := "api", timestamp := "t", data := [] }])) :=
  ⟨by decide,
   publish_history_capacity
     { subscribers := fun _ => [], event_history := [], max_history := 1000 }
     { id := "e1", type := .api_call, source := "api", timestamp := "t", data := [] }
     rfl (by decide)⟩

/-- C5: `handle_event` fires a delivery exactly for the registered
endpoints that are active and subscribed to the event's type: membership
in the fired list is equivalent to being a registered, active endpoint
whose event list contains the type. -/
theorem handleEvent_targets (endpoints : List WebhookEndpoint) (e : Event)
    (ep : WebhookEndpoint) :
    ep ∈ handleEvent endpoints e ↔
      ep ∈ endpoints ∧ ep.active = true ∧ e.type ∈ ep.events := by
  simp [handleEvent, List.mem_filter, and_assoc]

/-- C7: `get_event_recipients` implements the fixed per-type policy — the
new user's email and name from the payload for `user.registered`, the
acting user's email from the payload for `project.created` and
`proposal.generated`, the fixed administrative address for `system.error`
whatever the event's ids, and the empty list for every other type. Only
`event.type` and `event.data` are consulted. -/
theorem getEventRecipients_policy (e : Event) :
    getEventRecipients e =
      match e.type with
      | .user_registered =>
          [{ channel := "email", address := dictGet e.data "email" "",
             name := dictGet e.data "full_name" "Usuário" }]
      | .project_created =>
          [{ channel := "email", address := dictGet e.data "user_email" "",
             name := dictGet e.data "user_name" "Usuário" }]
      | .proposal_generated =>
          [{ channel := "email", address := dictGet e.data "user_email" "",
             name := dictGet e.data "user_name" "Usuário" }]
      | .system_error =>
          [{ channel := "email", address := "admin@tsi.com.br", name := "Administrador" }]
      | _ => [] := by
  cases h : e.type <;> simp [getEventRecipients, h]

/-- C9: `broadcast_event` targets exactly the claimed set — the event's
`user_id` alone when it is set and connected (nobody when it is not
connected), and every connected user when `user_id` is unset. -/
theorem broadcastTargets_policy {α : Type} (connections : List (String × α))
    (e : Event) (u : String) :
    u ∈ broadcastTargets connections e ↔
      (match e.user_id with
       | some v => u = v ∧ v ∈ connections.map Prod.fst
       | none => u ∈ connections.map Prod.fst) := by
  cases h : e.user_id with
  | none =>
      by_cases hc : connections.isEmpty <;>
        simp_all [broadcastTargets, List.mem_filter, List.isEmpty_iff]
  | some v =>
      by_cases hc : connections.isEmpty
      · have : connections = [] := List.isEmpty_iff.mp hc
        simp_all [broadcastTargets]
      · simp_all [broadcastTargets, List.mem_filter]

/-- C10: with the HTTP session never initialized — as in the module-level
`webhook_manager`, whose constructor leaves `session = None` — the
`if not self.session` guard makes `send_webhook` perform zero delivery
attempts, zero sleeps, and return normally, for every endpoint, event
environment and retry configuration. -/
theorem sendWebhook_no_session (ep : WebhookEndpoint)
    (outcomes : Nat → AttemptOutcome) :
    sendWebhookAttempts moduleWebhookManagerSession ep outcomes =
      { attempts := 0, sleeps := [], delivered := false } ∧
    moduleWebhookManagerSession = none :=
  ⟨rfl, rfl⟩

/-- All-failing runs of the retry loop over the index list `range' k n`
(with `k + n = retryCount`): every index is attempted, nothing is
delivered, and a backoff sleep of `2 ^ j` is executed exactly for those
failing indices `j` that raised an exception and are not the loop's last
index — a non-2xx response never sleeps. -/
theorem attemptLoop_all_fail (outcomes : Nat → AttemptOutcome) (rc : Nat)
    (hfail : ∀ j, j < rc → (outcomes j).failed = true) :
    ∀ n k, k + n = rc →
      attemptLoop outcomes rc (List.range' k n) =
        { attempts := n,
          sleeps := ((List.range' k (n - 1)).filter
              (fun j => (outcomes j).isExc)).map (fun j => 2 ^ j),
          delivered := false } := by
  intro n
  induction n with
  | zero =>
      intro k hk
      simp [attemptLoop]
  | succ m ih =>
      intro k hk
      have hkrc : k < rc := by omega
      have hf := hfail k hkrc
      rw [List.range'_succ]
      cases ho : outcomes k with
      | status c =>
          have hnot : ¬ (200 ≤ c ∧ c < 300) := by
            rw [ho] at hf
            simp [AttemptOutcome.failed] at hf
            omega
          simp only [attemptLoop, ho, if_neg hnot]
          rw [ih (k + 1) (by omega)]
          simp only [SendResult.mk.injEq, Nat.succ_sub_one]
          refine ⟨by omega, ?_, trivial⟩
          cases m with
          | zero => simp
          | succ m' =>
              rw [List.range'_succ]
              simp [AttemptOutcome.isExc, ho]
      | exc =>
          simp only [attemptLoop, ho]
          rw [ih (k + 1) (by omega)]
          simp only [SendResult.mk.injEq, Nat.succ_sub_one]
          refine ⟨by omega, ?_, trivial⟩
          cases m with
          | zero =>
              have : ¬ k < rc - 1 := by omega
              simp [this]
          | succ m' =>
              have : k < rc - 1 := by omega
              rw [List.range'_succ]
              simp [this, AttemptOutcome.isExc, ho]

/-- C2 (amended): with an always-failing destination the retry loop makes
exactly `endpoint.retry_count` attempts and abandons the delivery; a
backoff wait of `2 ^ k` follows attempt `k` exactly when that attempt
failed by raising an exception (timeout or transport error) and was not
the last attempt — an attempt that completed with a non-2xx HTTP response
is followed by no wait. -/
theorem sendWebhook_all_fail (ep : WebhookEndpoint) (outcomes : Nat → AttemptOutcome)
    (hfail : ∀ j, j < ep.retry_count → (outcomes j).failed = true) :
    sendWebhookAttempts (some ()) ep outcomes =
      { attempts := ep.retry_count,
        sleeps := ((List.range (ep.retry_count - 1)).filter
            (fun j => (outcomes j).isExc)).map (fun j => 2 ^ j),
        delivered := false } := by
  show runAttempts outcomes ep.retry_count = _
  unfold runAttempts
  rw [List.range_eq_range', List.range_eq_range']
  exact attemptLoop_all_fail outcomes ep.retry_count hfail ep.retry_count 0 (by omega)

/-- Endpoint fixture for the retry-loop claims: dataclass defaults, hence
`retry_count = 3`. -/
def retryEndpoint : WebhookEndpoint :=
  { id := "ep-retry", url := "https://example.invalid/hook",
    events := [.project_created] }

/-- C2 witness: every attempt raising an exception on the default
`retry_count = 3` endpoint gives exactly 3 attempts with waits 1, 2. -/
theorem sendWebhook_all_fail_witness :
    (∀ j, j < retryEndpoint.retry_count → (AttemptOutcome.exc).failed = true) ∧
    sendWebhookAttempts (some ()) retryEndpoint (fun _ => .exc) =
      { attempts := 3, sleeps := [1, 2], delivered := false } := by
  refine ⟨fun j hj => rfl, ?_⟩
  rw [sendWebhook_all_fail retryEndpoint (fun _ => .exc) (fun j hj => rfl)]
  decide

/-- C2 counterexample to the claim as stated: a destination failing every
attempt with HTTP 500 (a non-2xx status, hence a failed attempt) on the
default `retry_count = 3` endpoint yields 3 attempts but an empty wait
list — not the claimed waits `2 ^ 0, 2 ^ 1` between consecutive failed
attempts. -/
theorem sendWebhook_backoff_counterexample :
    ((List.range retryEndpoint.retry_count).all
        (fun _ => (AttemptOutcome.status 500).failed)) = true ∧
    (sendWebhookAttempts (some ()) retryEndpoint (fun _ => .status 500)).attempts = 3 ∧
    (sendWebhookAttempts (some ()) retryEndpoint (fun _ => .status 500)).sleeps = [] ∧
    ([] : List Nat) ≠ [2 ^ 0, 2 ^ 1] := by decide

/-- Sequential scheduling unrolled: each scheduled entry starts at the
running sum of the durations of the entries before it (`scanl` prefix
sums starting at `now`). -/
theorem scheduleSeq_eq_zip_scanl (dur : WebhookEndpoint → Nat)
    (l : List WebhookEndpoint) (now : Nat) :
    scheduleSeq dur l now = l.zip ((l.map dur).scanl (fun a b => a + b) now) := by
  induction l generalizing now with
  | nil => rfl
  | cons ep t ih => simp [scheduleSeq, List.scanl, ih]

/-- C6 (amended): deliveries for one event are sequential, not concurrent:
`handle_event` awaits each matching endpoint's `send_webhook` in turn, so
endpoint `i`'s delivery starts exactly when the summed durations of all
earlier matching endpoints' deliveries have elapsed — an earlier
endpoint's latency, retries and backoff delay every later endpoint's
delivery of the same event by their full duration. -/
theorem handleEventSchedule_sequential (endpoints : List WebhookEndpoint)
    (e : Event) (dur : WebhookEndpoint → Nat) :
    handleEventSchedule endpoints e dur =
      (handleEvent endpoints e).zip
        (((handleEvent endpoints e).map dur).scanl (fun a b => a + b) 0) :=
  scheduleSeq_eq_zip_scanl dur (handleEvent endpoints e) 0

/-- Endpoint fixture: a permanently unreachable endpoint whose delivery
takes long (three 30s timeouts plus backoff). -/
def slowEndpoint : WebhookEndpoint :=
  { id := "slow", url := "https://slow.example/hook", events := [.project_created] }

/-- Endpoint fixture: a fast endpoint subscribed to the same event type. -/
def fastEndpoint : WebhookEndpoint :=
  { id := "fast", url := "https://fast.example/hook", events := [.project_created] }

/-- Event fixture matched by both endpoints above. -/
def sharedEvent : Event :=
  { id := "e6", type := .project_created, source := "api", timestamp := "t", data := [] }

/-- C6 counterexample to the claim as stated: with the slow endpoint's
delivery taking 93 time units the fast endpoint's delivery of the same
event starts at 93, while it starts at 0 when the slow delivery takes 0 —
the slow endpoint's failure and retries delay the other endpoint's
delivery, so deliveries are not isolated. -/
theorem handleEvent_deliveries_not_isolated :
    handleEventSchedule [slowEndpoint, fastEndpoint] sharedEvent
        (fun ep => if ep.id = "slow" then 93 else 1) =
      [(slowEndpoint, 0), (fastEndpoint, 93)] ∧
    handleEventSchedule [slowEndpoint, fastEndpoint] sharedEvent
        (fun ep => if ep.id = "slow" then 0 else 1) =
      [(slowEndpoint, 0), (fastEndpoint, 0)] := by decide

/-- Rendering a format string fails (KeyError) when one of its replacement
fields is missing from the field set. -/
theorem renderSegs_none_of_missing (segs : List Seg) (fields : List (String × String))
    (k : String) (hk : k ∈ segVars segs) (hmiss : fields.lookup k = none) :
    renderSegs segs fields = none := by
  induction segs with
  | nil => simp [segVars] at hk
  | cons s t ih =>
      cases s with
      | lit str =>
          simp only [segVars] at hk
          simp [renderSegs, ih hk]
      | var k2 =>
          simp only [segVars, List.mem_cons] at hk
          rcases hk with rfl | hk
          · simp [renderSegs, hmiss]
          · cases hl : fields.lookup k2 with
            | none => simp [renderSegs, hl]
            | some v => simp [renderSegs, hl, ih hk]

/-- C8: when a replacement field required by the selected template's
subject or content is absent from the merged field set, no notification is
created for that recipient — the stored list is returned unchanged with no
notification to send — and the failure stays local: the recipient loop
continues with the remaining recipients from the unchanged list, whatever
id the environment would have drawn. -/
theorem createNotification_missing_field (notifications : List Notification)
    (templates : List (String × Template)) (e : Event) (r : Recipient)
    (templateKey newId : String) (tmpl : Template) (k : String)
    (htmpl : templates.lookup templateKey = some tmpl)
    (hk : k ∈ segVars tmpl.subject ∨ k ∈ segVars tmpl.content)
    (hmiss : (templateData e r).lookup k = none) :
    createNotification notifications templates e r templateKey newId =
      (notifications, none) ∧
    ∀ rs i idGen,
      processRecipients templates e templateKey idGen (r :: rs) i notifications =
        processRecipients templates e templateKey idGen rs (i + 1) notifications := by
  have hmain : ∀ nid,
      createNotification notifications templates e r templateKey nid =
        (notifications, none) := by
    intro nid
    unfold createNotification
    rw [htmpl]
    dsimp only
    rcases hk with hk | hk
    · rw [renderSegs_none_of_missing tmpl.subject _ k hk hmiss]
    · rw [renderSegs_none_of_missing tmpl.content _ k hk hmiss]
      cases renderSegs tmpl.subject (templateData e r) <;> rfl
  refine ⟨hmain newId, ?_⟩
  intro rs i idGen
  show (match createNotification notifications templates e r templateKey (idGen i) with
        | (_, some n) =>
            processRecipients templates e templateKey idGen rs (i + 1)
              (notifications ++ [sendNotification n])
        | (acc2, none) =>
            processRecipients templates e templateKey idGen rs (i + 1) acc2) = _
  rw [hmain (idGen i)]

/-- Event fixture for C8: a `project.created` event whose payload lacks the
`application` field the template's content requires. -/
def sparseProjectEvent : Event :=
  { id := "e8", type := .project_created, source := "api",
    timestamp := "01/01/2025 00:00:00",
    data := [("project_name", "Planta A"), ("project_id", "p1"),
             ("created_at", "2025-01-01"), ("user_email", "u@example.com"),
             ("user_name", "U")] }

/-- Recipient fixture for C8, as `get_event_recipients` would build it. -/
def sparseProjectRecipient : Recipient :=
  { channel := "email", address := "u@example.com", name := "U" }

/-- C8 witness: the fixture's merged field set misses `application`, so
creating the notification from the `project_created` default template
leaves the (empty) stored list unchanged and returns none. -/
theorem createNotification_missing_field_witness :
    (templateData sparseProjectEvent sparseProjectRecipient).lookup "application" = none ∧
    createNotification [] defaultTemplates sparseProjectEvent sparseProjectRecipient
      "project_created" "n1" = ([], none) := by
  refine ⟨by decide, ?_⟩
  exact (createNotification_missing_field [] defaultTemplates sparseProjectEvent
    sparseProjectRecipient "project_created" "n1"
    ((defaultTemplates.lookup "project_created").getD { subject := [], content := [] })
    "application" (by decide) (Or.inr (by decide)) (by decide)).1

/-- Endpoint fixture for C1: a signed endpoint with secret `s3cr3t`. -/
def signedEndpoint : WebhookEndpoint :=
  { id := "ep1", url := "https://example.com/hook", events := [.system_error],
    secret := some "s3cr3t" }

/-- Event fixture for C1. -/
def signedEvent : Event :=
  { id := "e1", type := .system_error, source := "api",
    timestamp := "2025-01-01T00:00:00", data := [] }

set_option maxRecDepth 100000 in
set_option maxHeartbeats 1000000 in
/-- C1: at the fixture endpoint and event, the request `send_webhook`
builds carries `X-Webhook-Signature: sha256=<hex>` where the HMAC is
computed over `json.dumps(payload, separators=(',', ':'))` — but the body
aiohttp sends for `json=payload` is `json.dumps(payload)` with its default
separators, whose bytes differ, and the attached header is not
`sha256=` followed by the hex HMAC of the request body that is sent. The
signature therefore never verifies against the received body bytes. -/
theorem webhookSignature_signs_compact_not_sent_body :
    (buildWebhookRequest signedEndpoint signedEvent).headers.lookup "X-Webhook-Signature" =
      some ("sha256=" ++ bytesToHex (hmacSha256 (strBytes "s3cr3t")
        (strBytes (dumpsCompact (webhookPayload signedEvent))))) ∧
    (buildWebhookRequest signedEndpoint signedEvent).body =
      dumpsPythonDefault (webhookPayload signedEvent) ∧
    strBytes (dumpsCompact (webhookPayload signedEvent)) ≠
      strBytes (dumpsPythonDefault (webhookPayload signedEvent)) ∧
    (buildWebhookRequest signedEndpoint signedEvent).headers.lookup "X-Webhook-Signature" ≠
      some ("sha256=" ++ bytesToHex (hmacSha256 (strBytes "s3cr3t")
        (strBytes (buildWebhookRequest signedEndpoint signedEvent).body))) := by
  decide

end Webhooks
